import Mathlib

/-!
Verification development for the `staging` repository
(`staging_core/src/lib.rs`, `staging_macro/src/lib.rs`,
`staging/examples/named_struct.rs`).

The repository is a derive-macro core: from a record definition it generates
a staging type (one fallible slot per field, plus an optional
`additional_errors` vector) and a `TryFrom` conversion that collects the
per-field errors into an accumulator and, on non-empty accumulator, reduces
them via `into_iter().collect()` (an externally supplied `FromIterator`).

We embed two layers:
1. the runtime semantics of the generated `try_from` body
   (`Receiver::to_tokens`, `ReceiverField::take_error`,
   `ReceiverField::initializer`);
2. the generation pipeline itself (`try_derive_checker`,
   `Receiver::from_derive_input` via darling, `Receiver::to_tokens` shape
   checks, `checker_name`, `final_error`).

Fields are modelled uniformly: each field slot of a staging value is an
`Except ε α` (Rust `Result<T, Error>`), in declaration order.  `expect`
panics in the Rust generation path are modelled as `Except.error` results,
and the `unwrap()` panic in final-record construction is modelled as the
`none` result of `try_from`.
-/

/-- A runtime staging value as generated by the macro: one `Result` per
field, in field-declaration order, plus the `additional_errors` vector
(present only when the flag is set; when the flag is unset the generated
struct has no such field, which we model by ignoring this component). -/
structure StagingValue (α ε : Type) where
  fields : List (Except ε α)
  additional_errors : List ε

/-- The error component of one field outcome (`Err(err)` in Rust). -/
def err_part {α ε : Type} : Except ε α → Option ε
  | Except.ok _ => none
  | Except.error e => some e

/-- The value component of one field outcome, as retained by the generated
`take_error` statement: `Ok(value) => Some(value), Err(_) => None`. -/
def val_part {α ε : Type} : Except ε α → Option α
  | Except.ok v => some v
  | Except.error _ => none

/-- One generated `take_error` statement (`ReceiverField::take_error`,
lib.rs lines 165-182): on `Ok(value)` retain `Some(value)`; on `Err(err)`
push `err` onto `__errors` and retain `None`.  The state is the pair
(`__errors` so far, retained optionals so far). -/
def take_error {α ε : Type} (acc : List ε × List (Option α)) (o : Except ε α) :
    List ε × List (Option α) :=
  match o with
  | Except.ok v => (acc.1, acc.2 ++ [some v])
  | Except.error e => (acc.1 ++ [e], acc.2 ++ [none])

/-- The generated initializer of `__errors` (`errors_init`, lib.rs lines
109-113): `checker.additional_errors` when the flag is present, otherwise
`Vec::new()`. -/
def errors_init {α ε : Type} (additional_errors_enabled : Bool)
    (checker : StagingValue α ε) : List ε :=
  if additional_errors_enabled then checker.additional_errors else []

/-- The final-record construction step (`ReceiverField::initializer`,
lib.rs lines 184-193): `#ident: #ident.unwrap()` for every field.  `none`
models the `unwrap()` panic on a missing value. -/
def unwrap_all {α : Type} : List (Option α) → Option (List α)
  | [] => some []
  | none :: _ => none
  | some v :: rest => (unwrap_all rest).map (fun vs => v :: vs)

/-- The body of the generated `try_from` (lib.rs lines 124-135):
initialize `__errors`, run the `take_error` statements in field-declaration
order, and either reduce the accumulator into the failure value
(`__errors.into_iter().collect()`) or build the record by unwrapping every
retained optional.  The outer `Option` models the `unwrap()` panic. -/
def try_from {α ε ε' : Type} (additional_errors_enabled : Bool)
    (reduce : List ε → ε') (checker : StagingValue α ε) :
    Option (Except ε' (List α)) :=
  let st := checker.fields.foldl take_error
    (errors_init additional_errors_enabled checker, [])
  if st.1.isEmpty then (unwrap_all st.2).map Except.ok
  else some (Except.error (reduce st.1))

/-- The failing fields' errors, in field-declaration order. -/
def field_errors {α ε : Type} (fields : List (Except ε α)) : List ε :=
  fields.filterMap err_part

/-- The full accumulator contents as specified: unassociated errors first
(when enabled), then field errors in declaration order. -/
def accumulated {α ε : Type} (additional_errors_enabled : Bool)
    (checker : StagingValue α ε) : List ε :=
  errors_init additional_errors_enabled checker ++ field_errors checker.fields

lemma foldl_take_error_eq {α ε : Type} (fields : List (Except ε α))
    (errs0 : List ε) (vals0 : List (Option α)) :
    fields.foldl take_error (errs0, vals0) =
      (errs0 ++ field_errors fields, vals0 ++ fields.map val_part) := by
  induction fields generalizing errs0 vals0 with
  | nil => simp [field_errors]
  | cons hd tl ih =>
    cases hd with
    | ok v =>
      simp only [List.foldl_cons, take_error]
      rw [ih]
      simp [field_errors, err_part, val_part]
    | error e =>
      simp only [List.foldl_cons, take_error]
      rw [ih]
      simp [field_errors, err_part, val_part]

lemma unwrap_all_map_val_part {α ε : Type} (fields : List (Except ε α))
    (h : field_errors fields = []) :
    unwrap_all (fields.map val_part) = some (fields.filterMap val_part) := by
  induction fields with
  | nil => simp [unwrap_all]
  | cons hd tl ih =>
    cases hd with
    | ok v =>
      simp only [field_errors, List.filterMap_cons, err_part] at h
      simp [val_part, unwrap_all, ih h]
    | error e =>
      simp [field_errors, err_part, List.filterMap_cons] at h

lemma all_isSome_of_no_errors {α ε : Type} (fields : List (Except ε α))
    (h : field_errors fields = []) :
    (fields.map val_part).all Option.isSome = true := by
  induction fields with
  | nil => simp
  | cons hd tl ih =>
    cases hd with
    | ok v =>
      simp only [field_errors, List.filterMap_cons, err_part] at h
      simp [val_part, ih h]
    | error e =>
      simp [field_errors, err_part, List.filterMap_cons] at h

/-- Master characterization of the generated conversion: it fails with the
reduction applied to the accumulated error list exactly when that list is
non-empty, and otherwise succeeds with the fields' values. -/
lemma try_from_eq {α ε ε' : Type} (enabled : Bool) (reduce : List ε → ε')
    (checker : StagingValue α ε) :
    try_from enabled reduce checker =
      if (accumulated enabled checker).isEmpty then
        some (Except.ok (checker.fields.filterMap val_part))
      else some (Except.error (reduce (accumulated enabled checker))) := by
  unfold try_from
  rw [foldl_take_error_eq]
  simp only [List.nil_append]
  by_cases h : (accumulated enabled checker).isEmpty = true
  · have hnil : errors_init enabled checker ++ field_errors checker.fields = [] := by
      have := List.isEmpty_iff.mp h
      simpa [accumulated] using this
    have h2 : field_errors checker.fields = [] := (List.append_eq_nil.mp hnil).2
    have h1 : (errors_init enabled checker ++ field_errors checker.fields).isEmpty = true := by
      simp [hnil]
    rw [if_pos h1, if_pos h, unwrap_all_map_val_part _ h2]
    rfl
  · have h1 : (errors_init enabled checker ++ field_errors checker.fields).isEmpty = false := by
      have : (accumulated enabled checker).isEmpty = false := by
        cases hb : (accumulated enabled checker).isEmpty
        · rfl
        · exact absurd hb h
      simpa [accumulated] using this
    rw [h1]
    simp only [Bool.false_eq_true, if_false]
    rw [if_neg h]
    rfl

/-!
Generation pipeline (`staging_core/src/lib.rs`).  `darling`'s
`Data<(), Field>` holds either a struct's field list or an enum body;
`take_struct` yields the fields only for a struct.  Field identifiers are
optional, `none` for tuple-struct (positional) fields.  Types and paths are
opaque to the core, modelled as strings.
-/

/-- One parsed field (`Field`, lib.rs lines 22-27): an optional identifier
and a type reference (opaque). -/
structure FieldRec where
  ident : Option String
  ty : String
deriving DecidableEq

/-- darling's `Data<(), Field>` as used by the receiver: struct bodies keep
their fields; enum bodies are parsed but carry nothing the generator uses. -/
inductive DataRec where
  | structData (fields : List FieldRec)
  | enumData

/-- darling's `take_struct`: the field list of a struct body, `none` for an
enum body. -/
def DataRec.take_struct : DataRec → Option (List FieldRec)
  | DataRec.structData fields => some fields
  | DataRec.enumData => none

/-- The parsed derive input as the macro sees it before darling validation:
the record identifier, the body, and the `#[staging(...)]` options, with
`error = none` meaning the required `error` option is absent. -/
structure DeriveInputRec where
  ident : String
  data : DataRec
  name : Option String
  error : Option String
  final_error : Option String
  crate_root : Option String
  additional_errors : Bool

/-- The darling receiver (`Receiver`, lib.rs lines 29-46) after successful
`from_derive_input`. -/
structure Receiver where
  ident : String
  data : DataRec
  name : Option String
  error : String
  final_error : Option String
  crate_root : Option String
  additional_errors : Bool

/-- darling's generated `Receiver::from_derive_input`: every declared
option is optional except `error`, whose absence is a darling error. -/
def from_derive_input (input : DeriveInputRec) : Except String Receiver :=
  match input.error with
  | none => Except.error "Missing field `error`"
  | some e =>
    Except.ok
      { ident := input.ident, data := input.data, name := input.name,
        error := e, final_error := input.final_error,
        crate_root := input.crate_root,
        additional_errors := input.additional_errors }

/-- `Receiver::checker_name` (lib.rs lines 49-53): the `name` option, or
the record identifier with `Staging` appended. -/
def checker_name (r : Receiver) : String :=
  (r.name).getD (r.ident ++ "Staging")

/-- `Receiver::final_error` (lib.rs lines 55-57): the `final_error` option,
defaulting to `error`. -/
def final_error (r : Receiver) : String :=
  (r.final_error).getD r.error

/-- `Receiver::crate_root` (lib.rs lines 59-64): the `crate_root` option,
defaulting to `::staging_core`. -/
def crate_root (r : Receiver) : String :=
  (r.crate_root).getD "::staging_core"

/-- The content of the generated artifact that the claims observe: the
staging type's name, its field names and types in declaration order, the
presence of the `additional_errors` vector, and the error types wired into
the generated `TryFrom` impl. -/
structure GeneratedImpl where
  staging_name : String
  field_names : List String
  field_tys : List String
  has_additional_errors : Bool
  error_ty : String
  final_error_ty : String
  root : String
deriving DecidableEq

/-- The per-field identifier extraction forced by `ReceiverField::take_error`
and `ReceiverField::initializer` (lib.rs lines 165-170, 184-189):
`self.field.ident.as_ref().expect("Unnamed fields not supported")` for each
field in order; the first unnamed field panics, modelled as `none`. -/
def take_idents : List FieldRec → Option (List String)
  | [] => some []
  | f :: rest =>
    match f.ident with
    | none => none
    | some n => (take_idents rest).map (fun ns => n :: ns)

/-- `Receiver::to_tokens` (lib.rs lines 78-139) together with the per-field
`expect`s it forces (lines 165-170, 184-189), modelled as a fallible
generation step: `take_struct().expect("Only structs are supported")`
and `ident.as_ref().expect("Unnamed fields not supported")` become
`Except.error` with the panic message. -/
def to_tokens (r : Receiver) : Except String GeneratedImpl :=
  match r.data.take_struct with
  | none => Except.error "Only structs are supported"
  | some fields =>
    match take_idents fields with
    | none => Except.error "Unnamed fields not supported"
    | some names =>
      Except.ok
        { staging_name := checker_name r, field_names := names,
          field_tys := fields.map (fun f => f.ty),
          has_additional_errors := r.additional_errors,
          error_ty := r.error, final_error_ty := final_error r,
          root := crate_root r }

/-- `try_derive_checker` (lib.rs lines 15-20): parse the input through
darling, then emit the tokens. -/
def try_derive_checker (input : DeriveInputRec) : Except String GeneratedImpl :=
  match from_derive_input input with
  | Except.error e => Except.error e
  | Except.ok r => to_tokens r

/-- The outcome of `derive_checker` (lib.rs lines 8-13): generated tokens
on success, otherwise the emitted compile error
(`err.write_errors()`, or a proc-macro panic shown by the compiler). -/
inductive DeriveOutput where
  | generated (g : GeneratedImpl)
  | compileError (msg : String)

/-- `derive_checker` (lib.rs lines 8-13): the failure of
`try_derive_checker` is turned into error tokens, never discarded. -/
def derive_checker (input : DeriveInputRec) : DeriveOutput :=
  match try_derive_checker input with
  | Except.ok g => DeriveOutput.generated g
  | Except.error e => DeriveOutput.compileError e

/-- Whether a body is a flat named-field record: a struct whose every field
has an identifier. -/
def is_flat_named : DataRec → Bool
  | DataRec.structData fields => fields.all (fun f => f.ident.isSome)
  | DataRec.enumData => false

/-!
The example reduction (`staging/examples/named_struct.rs`, lines 58-67):
`FromIterator<Error> for Error` collects the errors into a vector, returns
the sole element when there is exactly one, and wraps the vector in
`Error::Multiple` otherwise.
-/

/-- The example's `Error` enum (named_struct.rs lines 26-33); the payloads
irrelevant to aggregation are dropped. -/
inductive Err where
  | parseFail
  | invalidName
  | nameAgeMismatch
  | ageTooHigh
  | multiple (errs : List Err)

/-- The example's `FromIterator<Error> for Error` (named_struct.rs lines
58-67): identity on a singleton, `Error::Multiple` otherwise. -/
def Err.from_iter (errors : List Err) : Err :=
  match errors with
  | [e] => e
  | es => Err.multiple es

/-- Decidable equality of field outcomes, for concrete evaluation of the
conversion's results. -/
instance {ε α : Type} [DecidableEq ε] [DecidableEq α] :
    DecidableEq (Except ε α) := fun a b =>
  match a, b with
  | Except.ok x, Except.ok y =>
    if h : x = y then isTrue (by rw [h])
    else isFalse (by intro hc; injection hc; contradiction)
  | Except.ok _, Except.error _ => isFalse (fun hc => Except.noConfusion hc)
  | Except.error _, Except.ok _ => isFalse (fun hc => Except.noConfusion hc)
  | Except.error x, Except.error y =>
    if h : x = y then isTrue (by rw [h])
    else isFalse (by intro hc; injection hc; contradiction)

/-- Whether `derive_checker`'s output is a surfaced compile error. -/
def DeriveOutput.is_error : DeriveOutput → Bool
  | DeriveOutput.compileError _ => true
  | DeriveOutput.generated _ => false

lemma take_idents_none_of_unnamed (fields : List FieldRec)
    (h : fields.all (fun f => f.ident.isSome) = false) :
    take_idents fields = none := by
  induction fields with
  | nil => simp at h
  | cons f rest ih =>
    cases hf : f.ident with
    | none => simp [take_idents, hf]
    | some n =>
      simp only [List.all_cons, hf, Option.isSome_some, Bool.true_and] at h
      simp [take_idents, hf, ih h]

lemma field_errors_map_ok {α ε : Type} (vs : List α) :
    field_errors ((vs.map Except.ok : List (Except ε α))) = [] := by
  induction vs with
  | nil => simp [field_errors]
  | cons v rest ih =>
    simp [field_errors, List.filterMap_cons, err_part]

lemma filterMap_val_part_map_ok {α ε : Type} (vs : List α) :
    ((vs.map Except.ok : List (Except ε α))).filterMap val_part = vs := by
  induction vs with
  | nil => simp
  | cons v rest ih =>
    simp [List.filterMap_cons, val_part, ih]

lemma to_tokens_error_of_not_flat (r : Receiver)
    (h : is_flat_named r.data = false) :
    ∃ msg, to_tokens r = Except.error msg := by
  unfold to_tokens
  cases hd : r.data with
  | enumData =>
    exact ⟨"Only structs are supported", by simp [DataRec.take_struct]⟩
  | structData fields =>
    rw [hd] at h
    simp only [is_flat_named] at h
    exact ⟨"Unnamed fields not supported",
      by simp [DataRec.take_struct, take_idents_none_of_unnamed fields h]⟩

/-!
Claim theorems.
-/

/-- C1: for every staging value consumed by the generated conversion, the
accumulator handed to the reduction is exactly the unassociated errors in
their original order followed by the failing fields' errors in
field-declaration order; the list equality means every field failure and
every unassociated error reaches the reduction exactly once. -/
theorem c1_error_order {α ε ε' : Type} (enabled : Bool)
    (reduce : List ε → ε') (sv : StagingValue α ε) :
    (sv.fields.foldl take_error (errors_init enabled sv, [])).1 =
      (if enabled then sv.additional_errors else []) ++ field_errors sv.fields
    ∧ ((accumulated enabled sv).isEmpty = false →
        try_from enabled reduce sv =
          some (Except.error (reduce
            ((if enabled then sv.additional_errors else [])
              ++ field_errors sv.fields)))) := by
  constructor
  · rw [foldl_take_error_eq]
    simp [errors_init]
  · intro h
    rw [try_from_eq, h]
    simp [accumulated, errors_init]

/-- Witness for C1: unassociated errors [7, 8] and failing fields with
errors [5, 6] reach the reduction as the list [7, 8, 5, 6]. -/
theorem c1_error_order_witness :
    (accumulated true
      (⟨[Except.error 5, Except.ok 1, Except.error 6], [7, 8]⟩ :
        StagingValue Nat Nat)).isEmpty = false
    ∧ try_from true (fun l => l)
        (⟨[Except.error 5, Except.ok 1, Except.error 6], [7, 8]⟩ :
          StagingValue Nat Nat)
      = some (Except.error [7, 8, 5, 6]) :=
  ⟨by decide,
   (c1_error_order true (fun l => l)
      ⟨[Except.error 5, Except.ok 1, Except.error 6], [7, 8]⟩).2 (by decide)⟩

/-- C2 counterexample: a staging value whose every field outcome is a
success but whose additional_errors vector is non-empty makes the generated
conversion fail, so the claim's conclusion (success with the field values)
is false at this input. -/
theorem c2_counterexample :
    try_from true (fun l => l) (⟨[Except.ok 0], [7]⟩ : StagingValue Nat Nat)
      = some (Except.error [7])
    ∧ try_from true (fun l => l) (⟨[Except.ok 0], [7]⟩ : StagingValue Nat Nat)
      ≠ some (Except.ok [0]) :=
  ⟨by decide, by decide⟩

/-- C2 amended: when every field outcome is a success and, if the
additional-errors feature is enabled, the unassociated-error vector is
empty, the conversion succeeds with exactly the staging value's field
values, for every reduction (so the reduction is never consulted). -/
theorem c2_success {α ε ε' : Type} (enabled : Bool)
    (reduce : List ε → ε') (vs : List α) (ae : List ε)
    (h : enabled = true → ae = []) :
    try_from enabled reduce (⟨vs.map Except.ok, ae⟩ : StagingValue α ε)
      = some (Except.ok vs) := by
  have hacc :
      accumulated enabled (⟨vs.map Except.ok, ae⟩ : StagingValue α ε) = [] := by
    cases enabled with
    | false => simp [accumulated, errors_init, field_errors_map_ok]
    | true => simp [accumulated, errors_init, h rfl, field_errors_map_ok]
  rw [try_from_eq, hacc]
  simp only [List.isEmpty_nil, if_true]
  rw [filterMap_val_part_map_ok]

/-- Witness for C2 (amended): an all-success staging value with the feature
enabled and no unassociated errors converts to exactly its field values. -/
theorem c2_success_witness :
    (true = true → ([] : List Nat) = [])
    ∧ try_from true (fun l => l)
        (⟨[Except.ok 1, Except.ok 2], []⟩ : StagingValue Nat Nat)
      = some (Except.ok [1, 2]) :=
  ⟨fun _ => rfl, c2_success true (fun l => l) [1, 2] [] (fun _ => rfl)⟩

/-- C3: the conversion fails exactly when the accumulator is non-empty; on
failure the value is the reduction of the accumulator in accumulated order
and no record is produced, and on an empty accumulator a complete record is
produced — success is all-or-nothing. -/
theorem c3_all_or_nothing {α ε ε' : Type} (enabled : Bool)
    (reduce : List ε → ε') (sv : StagingValue α ε) :
    ((∃ e, try_from enabled reduce sv = some (Except.error e)) ↔
      accumulated enabled sv ≠ [])
    ∧ (accumulated enabled sv ≠ [] →
        try_from enabled reduce sv =
          some (Except.error (reduce (accumulated enabled sv))))
    ∧ (accumulated enabled sv = [] →
        try_from enabled reduce sv =
          some (Except.ok (sv.fields.filterMap val_part))) := by
  rw [try_from_eq]
  by_cases h : accumulated enabled sv = []
  · simp [h]
  · have hF : (accumulated enabled sv).isEmpty = false := by
      cases hi : (accumulated enabled sv).isEmpty with
      | true => exact absurd (List.isEmpty_iff.mp hi) h
      | false => rfl
    simp [h, hF]

/-- Witness for C3: one failing field gives a non-empty accumulator and a
failure carrying the reduced accumulator. -/
theorem c3_all_or_nothing_witness :
    accumulated false (⟨[Except.error 3], []⟩ : StagingValue Nat Nat) ≠ []
    ∧ try_from false (fun l => l)
        (⟨[Except.error 3], []⟩ : StagingValue Nat Nat)
      = some (Except.error [3]) :=
  ⟨by decide,
   (c3_all_or_nothing false (fun l => l) ⟨[Except.error 3], []⟩).2.1
     (by decide)⟩

/-- C4: with the example reduction (identity on a singleton sequence, wrap
in a multi-error container otherwise), a staging value with exactly one
failing field and, when the feature is enabled, no unassociated errors,
fails with exactly that field's error. -/
theorem c4_single_error_passthrough {α : Type} (enabled : Bool)
    (sv : StagingValue α Err) (e : Err)
    (h1 : field_errors sv.fields = [e])
    (h2 : enabled = true → sv.additional_errors = []) :
    try_from enabled Err.from_iter sv = some (Except.error e) := by
  have hacc : accumulated enabled sv = [e] := by
    cases enabled with
    | false => simp [accumulated, errors_init, h1]
    | true => simp [accumulated, errors_init, h2 rfl, h1]
  rw [try_from_eq, hacc]
  rfl

/-- Witness for C4: a single failing field carrying `InvalidName` and an
empty unassociated-error vector yields the failure `InvalidName` itself. -/
theorem c4_single_error_passthrough_witness :
    field_errors ([Except.error Err.invalidName] : List (Except Err Nat))
      = [Err.invalidName]
    ∧ (true = true → ([] : List Err) = [])
    ∧ try_from true Err.from_iter
        (⟨[Except.error Err.invalidName], []⟩ : StagingValue Nat Err)
      = some (Except.error Err.invalidName) :=
  ⟨rfl, fun _ => rfl,
   c4_single_error_passthrough true ⟨[Except.error Err.invalidName], []⟩
     Err.invalidName rfl (fun _ => rfl)⟩

/-- C5: when `__errors` is empty after all take_error statements, every
field's retained optional is Some, so the unwrap-based final-record
construction never reaches the missing-value (panic) branch and the
conversion returns the complete record. -/
theorem c5_empty_accumulator_no_panic {α ε ε' : Type} (enabled : Bool)
    (reduce : List ε → ε') (sv : StagingValue α ε)
    (h : (sv.fields.foldl take_error (errors_init enabled sv, [])).1 = []) :
    ((sv.fields.foldl take_error (errors_init enabled sv, [])).2.all
        Option.isSome = true)
    ∧ try_from enabled reduce sv ≠ none
    ∧ try_from enabled reduce sv
        = some (Except.ok (sv.fields.filterMap val_part)) := by
  rw [foldl_take_error_eq] at h
  have h' : errors_init enabled sv ++ field_errors sv.fields = [] := by
    simpa using h
  have h2 : field_errors sv.fields = [] := (List.append_eq_nil.mp h').2
  have hacc : accumulated enabled sv = [] := h'
  refine ⟨?_, ?_, ?_⟩
  · rw [foldl_take_error_eq]
    simpa using all_isSome_of_no_errors sv.fields h2
  · rw [try_from_eq, hacc]
    simp
  · rw [try_from_eq, hacc]
    rfl

/-- Witness for C5: an all-success staging value leaves the accumulator
empty, and the conversion constructs the record without panicking. -/
theorem c5_empty_accumulator_no_panic_witness :
    (([Except.ok 1] : List (Except Nat Nat)).foldl take_error
        (errors_init true (⟨[Except.ok 1], []⟩ : StagingValue Nat Nat),
          [])).1 = []
    ∧ try_from true (fun l => l)
        (⟨[Except.ok 1], []⟩ : StagingValue Nat Nat)
      = some (Except.ok [1]) :=
  ⟨by decide,
   (c5_empty_accumulator_no_panic true (fun l => l) ⟨[Except.ok 1], []⟩
      (by decide)).2.2⟩

/-- C6 counterexample: a zero-field record description passes darling
construction and token generation untouched, so an accepted StructSpec may
have an empty fields sequence, contrary to the claimed construction-time
rejection. -/
theorem c6_counterexample :
    try_derive_checker
      { ident := "Empty", data := DataRec.structData [], name := none,
        error := some "MyError", final_error := none, crate_root := none,
        additional_errors := false }
      = Except.ok
        { staging_name := "EmptyStaging", field_names := [], field_tys := [],
          has_additional_errors := false, error_ty := "MyError",
          final_error_ty := "MyError", root := "::staging_core" } := by
  decide

/-- C6 amended: a record description with zero fields is accepted by
construction and generation (the fields sequence of an accepted StructSpec
may be empty), and the zero-field conversion does not reject either: with
no fields and no unassociated errors it succeeds with the empty record. -/
theorem c6_zero_fields_accepted {α ε ε' : Type} (idn e : String)
    (nm fe cr : Option String) (ae : Bool) (enabled : Bool)
    (reduce : List ε → ε') :
    try_derive_checker
      { ident := idn, data := DataRec.structData [], name := nm,
        error := some e, final_error := fe, crate_root := cr,
        additional_errors := ae }
      = Except.ok
        { staging_name := nm.getD (idn ++ "Staging"), field_names := [],
          field_tys := [], has_additional_errors := ae, error_ty := e,
          final_error_ty := fe.getD e, root := cr.getD "::staging_core" }
    ∧ try_from enabled reduce (⟨[], []⟩ : StagingValue α ε)
      = some (Except.ok ([] : List α)) := by
  constructor
  · rfl
  · cases enabled <;> rfl

/-- C7: when the input body is not a flat named-field record (an enum, or a
struct with a positional field), generation fails — the shape panic is an
error outcome, never a generated artifact — and `derive_checker` surfaces
it as a compile error carrying the same message, not suppressing it. -/
theorem c7_unsupported_shape_surfaced (input : DeriveInputRec)
    (h : is_flat_named input.data = false) :
    (∃ msg, try_derive_checker input = Except.error msg)
    ∧ DeriveOutput.is_error (derive_checker input) = true
    ∧ ∀ msg, try_derive_checker input = Except.error msg →
        derive_checker input = DeriveOutput.compileError msg := by
  have key : ∃ msg, try_derive_checker input = Except.error msg := by
    cases hie : input.error with
    | none =>
      exact ⟨"Missing field `error`",
        by simp [try_derive_checker, from_derive_input, hie]⟩
    | some e =>
      obtain ⟨msg, hmsg⟩ := to_tokens_error_of_not_flat
        { ident := input.ident, data := input.data, name := input.name,
          error := e, final_error := input.final_error,
          crate_root := input.crate_root,
          additional_errors := input.additional_errors } h
      exact ⟨msg, by simp [try_derive_checker, from_derive_input, hie, hmsg]⟩
  obtain ⟨msg, hmsg⟩ := key
  refine ⟨⟨msg, hmsg⟩, ?_, ?_⟩
  · simp [derive_checker, hmsg, DeriveOutput.is_error]
  · intro m hm
    simp [derive_checker, hm]

/-- Witness for C7: deriving on an enum body produces a surfaced compile
error, not generated code. -/
theorem c7_unsupported_shape_surfaced_witness :
    is_flat_named DataRec.enumData = false
    ∧ DeriveOutput.is_error (derive_checker
        { ident := "E", data := DataRec.enumData, name := none,
          error := some "MyError", final_error := none, crate_root := none,
          additional_errors := false }) = true :=
  ⟨rfl, (c7_unsupported_shape_surfaced
    { ident := "E", data := DataRec.enumData, name := none,
      error := some "MyError", final_error := none, crate_root := none,
      additional_errors := false } rfl).2.1⟩

/-- C8 counterexample: a record description whose two fields share the name
`a` passes darling construction and token generation; no DuplicateField
rejection exists anywhere in the pipeline. -/
theorem c8_counterexample :
    try_derive_checker
      { ident := "Dup", data := DataRec.structData
          [{ ident := some "a", ty := "u8" },
           { ident := some "a", ty := "u16" }],
        name := none, error := some "MyError", final_error := none,
        crate_root := none, additional_errors := false }
      = Except.ok
        { staging_name := "DupStaging", field_names := ["a", "a"],
          field_tys := ["u8", "u16"], has_additional_errors := false,
          error_ty := "MyError", final_error_ty := "MyError",
          root := "::staging_core" } := by
  decide

/-- C8 amended: a record description in which two fields share a name is
accepted by SchemaModel construction and generation, regardless of the
other fields; no DuplicateField error is ever produced (duplicate-name
rejection is left to the host toolchain compiling the emitted code). -/
theorem c8_duplicates_accepted (idn e f t1 t2 g t3 : String)
    (nm fe cr : Option String) (ae : Bool) :
    try_derive_checker
      { ident := idn, data := DataRec.structData
          [{ ident := some f, ty := t1 }, { ident := some f, ty := t2 },
           { ident := some g, ty := t3 }],
        name := nm, error := some e, final_error := fe, crate_root := cr,
        additional_errors := ae }
      = Except.ok
        { staging_name := nm.getD (idn ++ "Staging"),
          field_names := [f, f, g], field_tys := [t1, t2, t3],
          has_additional_errors := ae, error_ty := e,
          final_error_ty := fe.getD e,
          root := cr.getD "::staging_core" } := rfl

/-- C9: when the `name` option is unspecified the generated staging type's
identifier is the record identifier with `Staging` appended, and when the
`final_error` option is unspecified the generated conversion's failure type
is the per-field error type. -/
theorem c9_naming_defaults (r : Receiver) :
    (r.name = none → checker_name r = r.ident ++ "Staging")
    ∧ (r.final_error = none → final_error r = r.error) := by
  constructor
  · intro h
    simp [checker_name, h]
  · intro h
    simp [final_error, h]

/-- Witness for C9: a receiver named `Args` with both options left out gets
the staging name `ArgsStaging` and the failure type `MyError`. -/
theorem c9_naming_defaults_witness :
    ({ ident := "Args", data := DataRec.structData [], name := none,
       error := "MyError", final_error := none, crate_root := none,
       additional_errors := false } : Receiver).name = none
    ∧ checker_name
        { ident := "Args", data := DataRec.structData [], name := none,
          error := "MyError", final_error := none, crate_root := none,
          additional_errors := false } = "Args" ++ "Staging"
    ∧ final_error
        { ident := "Args", data := DataRec.structData [], name := none,
          error := "MyError", final_error := none, crate_root := none,
          additional_errors := false } = "MyError" :=
  ⟨rfl,
   (c9_naming_defaults
     { ident := "Args", data := DataRec.structData [], name := none,
       error := "MyError", final_error := none, crate_root := none,
       additional_errors := false }).1 rfl,
   (c9_naming_defaults
     { ident := "Args", data := DataRec.structData [], name := none,
       error := "MyError", final_error := none, crate_root := none,
       additional_errors := false }).2 rfl⟩

/-- C10: when the additional-errors feature is disabled the generated
conversion starts from a fresh empty accumulator, and on any assignment of
field outcomes it returns exactly what the feature-enabled conversion
returns on the same field outcomes with an empty additional_errors
vector. -/
theorem c10_disabled_refines_enabled {α ε ε' : Type} (reduce : List ε → ε')
    (fields : List (Except ε α)) (ae : List ε) :
    errors_init false (⟨fields, ae⟩ : StagingValue α ε) = []
    ∧ try_from false reduce (⟨fields, ae⟩ : StagingValue α ε)
      = try_from true reduce (⟨fields, []⟩ : StagingValue α ε) :=
  ⟨rfl, rfl⟩
